import Mathlib

/-!
# FBX importer entry point (`code/AssetLib/FBX/FBXImporter.cpp`)

A shallow embedding of `FBXImporter::SetupProperties` and
`FBXImporter::InternReadFile`.  The collaborators that live in other
translation units (the I/O system, the two tokenizers, the parser, the
document model, the converter) are parameters of the embedding; every call
made to them is recorded in a trace, so that statements about which calls
happen, in which order and how often, are statements about the trace.

Conventions of the embedding:

* `float` is IEEE-754 binary32 with round-to-nearest-even arithmetic
  (`FLT_EVAL_METHOD == 0`); NaN results are the canonical quiet NaN.
* `size_t` arithmetic on the file size is done in `Nat`: the program
  allocates `FileSize() + 1` bytes, so the sum does not wrap.
* every exception raised by a collaborator derives from `std::exception`
  (the library raises `DeadlyImportError`).
-/

namespace FBX

/-! ## Bytes and C strings -/

/-- One `char` of the input buffer. -/
abbrev Byte := Fin 256

/-- The string literal `"Kaydara FBX Binary"` (18 characters) as the array the
compiler emits for it, terminating zero included. -/
def magicLiteral : List Byte :=
  [75, 97, 121, 100, 97, 114, 97, 32, 70, 66, 88, 32, 66, 105, 110, 97, 114, 121, 0]

/-- The 18 characters of `"Kaydara FBX Binary"`, without the terminator. -/
def magicBytes : List Byte :=
  [75, 97, 121, 100, 97, 114, 97, 32, 70, 66, 88, 32, 66, 105, 110, 97, 114, 121]

/-- C `strncmp`: compares at most `n` characters, stops after a zero
character.  A read past the end of a list yields 0; with zero-terminated
arguments no such read happens. -/
def strncmp : List Byte → List Byte → Nat → Int
  | _, _, 0 => 0
  | s1, s2, n + 1 =>
    let c1 : Byte := s1.headD 0
    let c2 : Byte := s2.headD 0
    if c1 ≠ c2 then (c1.val : Int) - (c2.val : Int)
    else if c1 = 0 then 0
    else strncmp s1.tail s2.tail n

/-! ## binary32 arithmetic -/

/-- An IEEE-754 binary32 value (`float`), by its sign bit, biased exponent
field and fraction field. -/
structure F32 where
  sign : Bool
  expo : Fin 256
  frac : Fin 8388608
  deriving DecidableEq, Repr

namespace F32

/-- The value is a NaN. -/
def isNaN (x : F32) : Bool := x.expo.val == 255 && x.frac.val != 0

/-- The value is an infinity. -/
def isInf (x : F32) : Bool := x.expo.val == 255 && x.frac.val == 0

/-- The C++ comparison `x == 0.0`: true for +0 and -0, false otherwise
(NaN included). -/
def isZero (x : F32) : Bool := x.expo.val == 0 && x.frac.val == 0

/-- Canonical quiet NaN. -/
def qNaN : F32 := ⟨false, 255, 4194304⟩

/-- Infinity of the given sign. -/
def inf (s : Bool) : F32 := ⟨s, 255, 0⟩

/-- Integer significand: the value of a finite `x` is
`significand x * 2 ^ exponent x`, up to sign. -/
def significand (x : F32) : Nat :=
  if x.expo.val = 0 then x.frac.val else 8388608 + x.frac.val

/-- Exponent of the unit in the last place of a finite `x`. -/
def exponent (x : F32) : Int :=
  if x.expo.val = 0 then -149 else (x.expo.val : Int) - 150

/-- Number of binary digits of `n`, computed with the given fuel. -/
def bitLengthAux : Nat → Nat → Nat
  | 0, _ => 0
  | fuel + 1, n => if n = 0 then 0 else bitLengthAux fuel (n / 2) + 1

/-- Number of binary digits of `n`. -/
def bitLength (n : Nat) : Nat := bitLengthAux n n

/-- Division of `m` by `2 ^ k` rounded to nearest, ties to even. -/
def roundHalfEven (m k : Nat) : Nat :=
  let q := m / 2 ^ k
  let r := m % 2 ^ k
  let h := 2 ^ (k - 1)
  if k = 0 then m
  else if h < r ∨ (r = h ∧ q % 2 = 1) then q + 1 else q

/-- Rounding of the real number `(-1)^s * m * 2^e` to binary32, to nearest
with ties to even, gradual underflow and overflow to infinity. -/
def ofScaled (s : Bool) (m : Nat) (e : Int) : F32 :=
  if m = 0 then ⟨s, 0, 0⟩
  else
    let q : Int := max (e + (bitLength m : Int) - 24) (-149)
    let t : Nat := if q ≤ e then m * 2 ^ (e - q).toNat else roundHalfEven m (q - e).toNat
    let t1 : Nat := if t = 16777216 then 8388608 else t
    let q1 : Int := if t = 16777216 then q + 1 else q
    if t1 < 8388608 then ⟨s, 0, Fin.ofNat t1⟩
    else if 255 ≤ q1 + 150 then inf s
    else ⟨s, Fin.ofNat (q1 + 150).toNat, Fin.ofNat (t1 - 8388608)⟩

/-- The C++ `*` on two `float` operands. -/
def mul (x y : F32) : F32 :=
  let s := xor x.sign y.sign
  if x.isNaN || y.isNaN then qNaN
  else if x.isInf then (if y.isZero then qNaN else inf s)
  else if y.isInf then (if x.isZero then qNaN else inf s)
  else ofScaled s (x.significand * y.significand) (x.exponent + y.exponent)

/-- The literal `0.01f`: bit pattern `0x3C23D70A`, that is
`10737418 * 2^-30`, the binary32 value nearest to 1/100. -/
def c001 : F32 := ⟨false, 120, 2348810⟩

/-- The value `100.0f` (bit pattern `0x42C80000`). -/
def hundred : F32 := ⟨false, 133, 4718592⟩

/-- The value `1.0f` (bit pattern `0x3F800000`). -/
def one : F32 := ⟨false, 127, 0⟩

/-- The value `+0.0f`. -/
def zero : F32 := ⟨false, 0, 0⟩

/-- The value `-0.0f`. -/
def negZero : F32 := ⟨true, 0, 0⟩

end F32

/-! ## Import settings (`FBXImporter::SetupProperties`) -/

/-- The importer settings `mSettings`, one boolean per configuration
switch, in the order in which `SetupProperties` assigns them. -/
structure ImportSettings where
  readAllLayers : Bool
  readAllMaterials : Bool
  readMaterials : Bool
  readTextures : Bool
  readCameras : Bool
  readLights : Bool
  readAnimations : Bool
  readWeights : Bool
  strictMode : Bool
  preservePivots : Bool
  optimizeEmptyAnimationCurves : Bool
  useLegacyEmbeddedTextureNaming : Bool
  removeEmptyBones : Bool
  convertToMeters : Bool
  ignoreUpDirection : Bool
  useSkeleton : Bool
  deriving DecidableEq, Repr

/-- The sixteen configuration-key macros that `SetupProperties` mentions.
Their expansions (property names) are defined in a header outside this file
and enter the embedding as a parameter `ConfigKey → String`. -/
inductive ConfigKey
  | AI_CONFIG_IMPORT_FBX_READ_ALL_GEOMETRY_LAYERS
  | AI_CONFIG_IMPORT_FBX_READ_ALL_MATERIALS
  | AI_CONFIG_IMPORT_FBX_READ_MATERIALS
  | AI_CONFIG_IMPORT_FBX_READ_TEXTURES
  | AI_CONFIG_IMPORT_FBX_READ_CAMERAS
  | AI_CONFIG_IMPORT_FBX_READ_LIGHTS
  | AI_CONFIG_IMPORT_FBX_READ_ANIMATIONS
  | AI_CONFIG_IMPORT_FBX_READ_WEIGHTS
  | AI_CONFIG_IMPORT_FBX_STRICT_MODE
  | AI_CONFIG_IMPORT_FBX_PRESERVE_PIVOTS
  | AI_CONFIG_IMPORT_FBX_OPTIMIZE_EMPTY_ANIMATION_CURVES
  | AI_CONFIG_IMPORT_FBX_EMBEDDED_TEXTURES_LEGACY_NAMING
  | AI_CONFIG_IMPORT_REMOVE_EMPTY_BONES
  | AI_CONFIG_FBX_CONVERT_TO_M
  | AI_CONFIG_IMPORT_FBX_IGNORE_UP_DIRECTION
  | AI_CONFIG_FBX_USE_SKELETON_BONE_CONTAINER
  deriving DecidableEq, Repr

/-- The host property store `pImp`, seen through its boolean properties: a
property name is either absent or bound to a boolean. -/
abbrev Importer := String → Option Bool

/-- Modelled from the spec: `Importer::GetPropertyBool`, which is defined
outside this file.  It yields the boolean stored under the name when the
name is present and the supplied default otherwise ("absent flags take
documented defaults"). -/
def Importer.GetPropertyBool (pImp : Importer) (szName : String) (bErrorReturn : Bool) : Bool :=
  (pImp szName).getD bErrorReturn

/-- `FBXImporter::SetupProperties`: the value assigned to `mSettings`. -/
def SetupProperties (macroValue : ConfigKey → String) (pImp : Importer) : ImportSettings where
  readAllLayers := pImp.GetPropertyBool (macroValue .AI_CONFIG_IMPORT_FBX_READ_ALL_GEOMETRY_LAYERS) true
  readAllMaterials := pImp.GetPropertyBool (macroValue .AI_CONFIG_IMPORT_FBX_READ_ALL_MATERIALS) false
  readMaterials := pImp.GetPropertyBool (macroValue .AI_CONFIG_IMPORT_FBX_READ_MATERIALS) true
  readTextures := pImp.GetPropertyBool (macroValue .AI_CONFIG_IMPORT_FBX_READ_TEXTURES) true
  readCameras := pImp.GetPropertyBool (macroValue .AI_CONFIG_IMPORT_FBX_READ_CAMERAS) true
  readLights := pImp.GetPropertyBool (macroValue .AI_CONFIG_IMPORT_FBX_READ_LIGHTS) true
  readAnimations := pImp.GetPropertyBool (macroValue .AI_CONFIG_IMPORT_FBX_READ_ANIMATIONS) true
  readWeights := pImp.GetPropertyBool (macroValue .AI_CONFIG_IMPORT_FBX_READ_WEIGHTS) true
  strictMode := pImp.GetPropertyBool (macroValue .AI_CONFIG_IMPORT_FBX_STRICT_MODE) false
  preservePivots := pImp.GetPropertyBool (macroValue .AI_CONFIG_IMPORT_FBX_PRESERVE_PIVOTS) true
  optimizeEmptyAnimationCurves :=
    pImp.GetPropertyBool (macroValue .AI_CONFIG_IMPORT_FBX_OPTIMIZE_EMPTY_ANIMATION_CURVES) true
  useLegacyEmbeddedTextureNaming :=
    pImp.GetPropertyBool (macroValue .AI_CONFIG_IMPORT_FBX_EMBEDDED_TEXTURES_LEGACY_NAMING) false
  removeEmptyBones := pImp.GetPropertyBool (macroValue .AI_CONFIG_IMPORT_REMOVE_EMPTY_BONES) true
  convertToMeters := pImp.GetPropertyBool (macroValue .AI_CONFIG_FBX_CONVERT_TO_M) false
  ignoreUpDirection := pImp.GetPropertyBool (macroValue .AI_CONFIG_IMPORT_FBX_IGNORE_UP_DIRECTION) false
  useSkeleton := pImp.GetPropertyBool (macroValue .AI_CONFIG_FBX_USE_SKELETON_BONE_CONTAINER) false

/-! ## Collaborators of `InternReadFile` -/

/-- An opened `IOStream`, positioned at the start of a file whose content
is `data`. -/
structure IOStream where
  data : List Byte
  deriving DecidableEq, Repr

/-- `IOStream::FileSize`. -/
def IOStream.FileSize (stream : IOStream) : Nat := stream.data.length

/-- `IOStream::Read(buffer, 1, count)` on a fresh stream: the bytes
delivered into the buffer. -/
def IOStream.Read (stream : IOStream) (count : Nat) : List Byte := stream.data.take count

/-- An exception in flight. -/
inductive Exception
  /-- Raised by this file through `ThrowException(msg)`. -/
  | ThrowException (msg : String)
  /-- A `std::exception` raised inside a collaborator. -/
  | raised (what : String)
  deriving DecidableEq, Repr

/-- The functions of other translation units that `InternReadFile` calls.
A tokenizer yields the tokens it appended to the token list, together with
the exception it raised, if any; the converter yields the scene as it left
it, together with the exception it raised, if any. -/
structure Collaborators (Token ParseTree Doc Scene : Type) where
  /-- `pIOHandler->Open(pFile, "rb")`; `none` is the null pointer. -/
  Open : String → Option IOStream
  /-- `TokenizeBinary(tokens, begin, length, tempAllocator)`. -/
  TokenizeBinary : List Byte → Nat → List Token × Option Exception
  /-- `Tokenize(tokens, begin, tempAllocator)`. -/
  Tokenize : List Byte → List Token × Option Exception
  /-- Constructor `Parser(tokens, tempAllocator, is_binary)`. -/
  Parser : List Token → Bool → Except Exception ParseTree
  /-- Constructor `Document(parser, mSettings)`. -/
  Document : ParseTree → ImportSettings → Except Exception Doc
  /-- `ConvertToAssimpScene(pScene, doc, removeEmptyBones)`. -/
  ConvertToAssimpScene : Scene → Doc → Bool → Scene × Option Exception
  /-- `doc.GlobalSettings().UnitScaleFactor()`. -/
  UnitScaleFactor : Doc → F32

/-- A call observed during one run of `InternReadFile`. -/
inductive Event (Token : Type)
  | Open (pFile : String)
  | FileSize
  | Read (count : Nat)
  | Close
  | TokenizeBinary (input : List Byte) (length : Nat)
  | Tokenize (input : List Byte)
  | Parser (tokens : List Token) (is_binary : Bool)
  | Document
  | ConvertToAssimpScene (removeEmptyBones : Bool)
  | SetFileScale (scale : F32)
  | destructor (token : Token)
  deriving DecidableEq, Repr

/-- What one run of `InternReadFile` leaves behind. -/
structure Run (Token Scene : Type) where
  /-- Normal return, or the exception that leaves the function. -/
  result : Except Exception Unit
  /-- The output scene `*pScene` afterwards. -/
  scene : Scene
  /-- The calls made, in order. -/
  trace : List (Event Token)

/-- State at the end of the `try` block. -/
structure TryBlock (Token Scene : Type) where
  tokens : List Token
  scene : Scene
  trace : List (Event Token)
  thrown : Option Exception

/-! ## `FBXImporter::InternReadFile` -/

/-- Lines 142-145: the buffer `contents` after the whole-file read. -/
def readContents (stream : IOStream) : List Byte :=
  let contents : List Byte := List.replicate (stream.FileSize + 1) 0
  let got := stream.Read (contents.length - 1)
  let contents := got ++ contents.drop got.length
  contents.set (contents.length - 1) 0

/-- Lines 153-159: the tokenizer choice, with the tokenizer result. -/
def tokenizeContents {Token ParseTree Doc Scene : Type}
    (io : Collaborators Token ParseTree Doc Scene) (contents : List Byte) :
    Bool × List Token × Option Exception :=
  if strncmp contents magicLiteral 18 = 0 then
    (true, io.TokenizeBinary contents contents.length)
  else
    (false, io.Tokenize contents)

/-- The trace entry of the tokenizer call made at lines 154-159. -/
def tokenizerCall {Token : Type} (is_binary : Bool) (contents : List Byte) : Event Token :=
  if is_binary then .TokenizeBinary contents contents.length else .Tokenize contents

/-- Lines 153-183: the body of the `try` block. -/
def tryBlock {Token ParseTree Doc Scene : Type}
    (io : Collaborators Token ParseTree Doc Scene) (mSettings : ImportSettings)
    (pScene : Scene) (contents : List Byte) : TryBlock Token Scene :=
  let is_binary := (tokenizeContents io contents).1
  let call : Event Token := tokenizerCall is_binary contents
  match (tokenizeContents io contents).2 with
  | (tokens, some e) => ⟨tokens, pScene, [call], some e⟩
  | (tokens, none) =>
    match io.Parser tokens is_binary with
    | .error e => ⟨tokens, pScene, [call, .Parser tokens is_binary], some e⟩
    | .ok parser =>
      match io.Document parser mSettings with
      | .error e => ⟨tokens, pScene, [call, .Parser tokens is_binary, .Document], some e⟩
      | .ok doc =>
        match io.ConvertToAssimpScene pScene doc mSettings.removeEmptyBones with
        | (scene, some e) =>
          ⟨tokens, scene,
            [call, .Parser tokens is_binary, .Document,
             .ConvertToAssimpScene mSettings.removeEmptyBones], some e⟩
        | (scene, none) =>
          let size_relative_to_cm := io.UnitScaleFactor doc
          if size_relative_to_cm.isZero then
            ⟨tokens, scene,
              [call, .Parser tokens is_binary, .Document,
               .ConvertToAssimpScene mSettings.removeEmptyBones],
              some (.ThrowException "The UnitScaleFactor must be non-zero")⟩
          else
            ⟨tokens, scene,
              [call, .Parser tokens is_binary, .Document,
               .ConvertToAssimpScene mSettings.removeEmptyBones,
               .SetFileScale (size_relative_to_cm.mul F32.c001)]
                ++ tokens.map .destructor,
              none⟩

/-- `FBXImporter::InternReadFile(pFile, pScene, pIOHandler)`. -/
def InternReadFile {Token ParseTree Doc Scene : Type}
    (io : Collaborators Token ParseTree Doc Scene) (mSettings : ImportSettings)
    (pFile : String) (pScene : Scene) : Run Token Scene :=
  match io.Open pFile with
  | none =>
    ⟨.error (.ThrowException "Could not open file for reading"), pScene, [.Open pFile]⟩
  | some stream =>
    let contents := readContents stream
    let body := tryBlock io mSettings pScene contents
    let before : List (Event Token) :=
      [.Open pFile, .FileSize, .Read (stream.FileSize + 1 - 1)]
    match body.thrown with
    | none => ⟨.ok (), body.scene, before ++ body.trace ++ [.Close]⟩
    | some e =>
      ⟨.error e, body.scene,
        before ++ body.trace ++ body.tokens.map .destructor ++ [.Close]⟩

/-! ## Observations on a trace -/

/-- The arguments of the `SetFileScale` calls, in order. -/
def fileScales {Token : Type} (trace : List (Event Token)) : List F32 :=
  trace.filterMap fun ev => match ev with
    | .SetFileScale v => some v
    | _ => none

/-- The tokens whose destructor ran, in order, one entry per run. -/
def destroyed {Token : Type} (trace : List (Event Token)) : List Token :=
  trace.filterMap fun ev => match ev with
    | .destructor t => some t
    | _ => none

/-- The `removeEmptyBones` arguments of the converter calls, in order. -/
def converterCalls {Token : Type} (trace : List (Event Token)) : List Bool :=
  trace.filterMap fun ev => match ev with
    | .ConvertToAssimpScene b => some b
    | _ => none

/-- The `is_binary` arguments of the `Parser` constructions, in order. -/
def parserCalls {Token : Type} (trace : List (Event Token)) : List Bool :=
  trace.filterMap fun ev => match ev with
    | .Parser _ b => some b
    | _ => none

/-- The event is a call of either tokenizer. -/
def Event.isTokenizer {Token : Type} : Event Token → Bool
  | .TokenizeBinary _ _ => true
  | .Tokenize _ => true
  | _ => false

/-- The event is a call of the binary tokenizer. -/
def Event.isTokenizeBinary {Token : Type} : Event Token → Bool
  | .TokenizeBinary _ _ => true
  | _ => false

/-- The event is a call of the text tokenizer. -/
def Event.isTokenize {Token : Type} : Event Token → Bool
  | .Tokenize _ => true
  | _ => false

/-- The event is a `Parser` construction. -/
def Event.isParser {Token : Type} : Event Token → Bool
  | .Parser _ _ => true
  | _ => false

/-- The event is a `Document` construction. -/
def Event.isDocument {Token : Type} : Event Token → Bool
  | .Document => true
  | _ => false

/-- The event is a converter call. -/
def Event.isConvert {Token : Type} : Event Token → Bool
  | .ConvertToAssimpScene _ => true
  | _ => false

/-- The event is the closing of the stream. -/
def Event.isClose {Token : Type} : Event Token → Bool
  | .Close => true
  | _ => false

/-- The event is a token destructor run. -/
def Event.isDestructor {Token : Type} : Event Token → Bool
  | .destructor _ => true
  | _ => false

/-! ## The settings as the specification lists them -/

/-- The settings field that the specification attaches to a configuration
key. -/
def settingOf : ConfigKey → ImportSettings → Bool
  | .AI_CONFIG_IMPORT_FBX_READ_ALL_GEOMETRY_LAYERS, s => s.readAllLayers
  | .AI_CONFIG_IMPORT_FBX_READ_ALL_MATERIALS, s => s.readAllMaterials
  | .AI_CONFIG_IMPORT_FBX_READ_MATERIALS, s => s.readMaterials
  | .AI_CONFIG_IMPORT_FBX_READ_TEXTURES, s => s.readTextures
  | .AI_CONFIG_IMPORT_FBX_READ_CAMERAS, s => s.readCameras
  | .AI_CONFIG_IMPORT_FBX_READ_LIGHTS, s => s.readLights
  | .AI_CONFIG_IMPORT_FBX_READ_ANIMATIONS, s => s.readAnimations
  | .AI_CONFIG_IMPORT_FBX_READ_WEIGHTS, s => s.readWeights
  | .AI_CONFIG_IMPORT_FBX_STRICT_MODE, s => s.strictMode
  | .AI_CONFIG_IMPORT_FBX_PRESERVE_PIVOTS, s => s.preservePivots
  | .AI_CONFIG_IMPORT_FBX_OPTIMIZE_EMPTY_ANIMATION_CURVES, s => s.optimizeEmptyAnimationCurves
  | .AI_CONFIG_IMPORT_FBX_EMBEDDED_TEXTURES_LEGACY_NAMING, s => s.useLegacyEmbeddedTextureNaming
  | .AI_CONFIG_IMPORT_REMOVE_EMPTY_BONES, s => s.removeEmptyBones
  | .AI_CONFIG_FBX_CONVERT_TO_M, s => s.convertToMeters
  | .AI_CONFIG_IMPORT_FBX_IGNORE_UP_DIRECTION, s => s.ignoreUpDirection
  | .AI_CONFIG_FBX_USE_SKELETON_BONE_CONTAINER, s => s.useSkeleton

/-- The settings the specification lists for an empty property store:
readAllLayers, readMaterials, readTextures, readCameras, readLights,
readAnimations, readWeights, preservePivots, optimizeEmptyAnimationCurves
and removeEmptyBones on, the other six off. -/
def documentedDefaults : ImportSettings where
  readAllLayers := true
  readAllMaterials := false
  readMaterials := true
  readTextures := true
  readCameras := true
  readLights := true
  readAnimations := true
  readWeights := true
  strictMode := false
  preservePivots := true
  optimizeEmptyAnimationCurves := true
  useLegacyEmbeddedTextureNaming := false
  removeEmptyBones := true
  convertToMeters := false
  ignoreUpDirection := false
  useSkeleton := false

/-! ## Concrete inputs -/

/-- A naming of the configuration keys in which every macro expands to its
own identifier. -/
def identifierNames : ConfigKey → String
  | .AI_CONFIG_IMPORT_FBX_READ_ALL_GEOMETRY_LAYERS => "AI_CONFIG_IMPORT_FBX_READ_ALL_GEOMETRY_LAYERS"
  | .AI_CONFIG_IMPORT_FBX_READ_ALL_MATERIALS => "AI_CONFIG_IMPORT_FBX_READ_ALL_MATERIALS"
  | .AI_CONFIG_IMPORT_FBX_READ_MATERIALS => "AI_CONFIG_IMPORT_FBX_READ_MATERIALS"
  | .AI_CONFIG_IMPORT_FBX_READ_TEXTURES => "AI_CONFIG_IMPORT_FBX_READ_TEXTURES"
  | .AI_CONFIG_IMPORT_FBX_READ_CAMERAS => "AI_CONFIG_IMPORT_FBX_READ_CAMERAS"
  | .AI_CONFIG_IMPORT_FBX_READ_LIGHTS => "AI_CONFIG_IMPORT_FBX_READ_LIGHTS"
  | .AI_CONFIG_IMPORT_FBX_READ_ANIMATIONS => "AI_CONFIG_IMPORT_FBX_READ_ANIMATIONS"
  | .AI_CONFIG_IMPORT_FBX_READ_WEIGHTS => "AI_CONFIG_IMPORT_FBX_READ_WEIGHTS"
  | .AI_CONFIG_IMPORT_FBX_STRICT_MODE => "AI_CONFIG_IMPORT_FBX_STRICT_MODE"
  | .AI_CONFIG_IMPORT_FBX_PRESERVE_PIVOTS => "AI_CONFIG_IMPORT_FBX_PRESERVE_PIVOTS"
  | .AI_CONFIG_IMPORT_FBX_OPTIMIZE_EMPTY_ANIMATION_CURVES =>
    "AI_CONFIG_IMPORT_FBX_OPTIMIZE_EMPTY_ANIMATION_CURVES"
  | .AI_CONFIG_IMPORT_FBX_EMBEDDED_TEXTURES_LEGACY_NAMING =>
    "AI_CONFIG_IMPORT_FBX_EMBEDDED_TEXTURES_LEGACY_NAMING"
  | .AI_CONFIG_IMPORT_REMOVE_EMPTY_BONES => "AI_CONFIG_IMPORT_REMOVE_EMPTY_BONES"
  | .AI_CONFIG_FBX_CONVERT_TO_M => "AI_CONFIG_FBX_CONVERT_TO_M"
  | .AI_CONFIG_IMPORT_FBX_IGNORE_UP_DIRECTION => "AI_CONFIG_IMPORT_FBX_IGNORE_UP_DIRECTION"
  | .AI_CONFIG_FBX_USE_SKELETON_BONE_CONTAINER => "AI_CONFIG_FBX_USE_SKELETON_BONE_CONTAINER"

/-- A property store that binds two of the keys and leaves the rest absent. -/
def sampleStore : Importer := fun szName =>
  if szName = "AI_CONFIG_FBX_CONVERT_TO_M" then some true
  else if szName = "AI_CONFIG_IMPORT_FBX_READ_LIGHTS" then some false
  else none

/-- A five-byte text file, `; FBX`. -/
def textStream : IOStream := ⟨[59, 32, 70, 66, 88]⟩

/-- A file that starts with the binary magic, followed by five more bytes. -/
def binaryStream : IOStream :=
  ⟨[75, 97, 121, 100, 97, 114, 97, 32, 70, 66, 88, 32, 66, 105, 110, 97, 114, 121,
    32, 32, 0, 26, 0]⟩

/-- Collaborators over natural numbers.  `missing.fbx` cannot be opened,
`binary.fbx` is `binaryStream`, every other name is `textStream`.  The text
tokenizer yields the tokens 3 and 4, the binary tokenizer one token (the
length it was given); the parse tree is the number of tokens (plus 100 for a
binary parse), the document is the parse tree, and the converter adds one to
the scene.  `failing` selects the stage that raises: 1 tokenizer, 2 parser,
3 document, 4 converter; any other number lets all of them succeed.  The
document reports `unitScale`. -/
def sampleHost (unitScale : F32) (failing : Nat) : Collaborators Nat Nat Nat Nat where
  Open := fun pFile =>
    if pFile = "missing.fbx" then none
    else if pFile = "binary.fbx" then some binaryStream
    else some textStream
  TokenizeBinary := fun _ length =>
    ([length], if failing = 1 then some (.raised "tokenizer") else none)
  Tokenize := fun _ => ([3, 4], if failing = 1 then some (.raised "tokenizer") else none)
  Parser := fun tokens is_binary =>
    if failing = 2 then .error (.raised "parser")
    else .ok (tokens.length + if is_binary then 100 else 0)
  Document := fun parser _ => if failing = 3 then .error (.raised "document") else .ok parser
  ConvertToAssimpScene := fun pScene _ _ =>
    (pScene + 1, if failing = 4 then some (.raised "converter") else none)
  UnitScaleFactor := fun _ => unitScale

/-! ## Lemmas on the buffer and on the magic test -/

theorem readContents_eq (stream : IOStream) : readContents stream = stream.data ++ [0] := by
  simp [readContents, IOStream.FileSize, IOStream.Read, List.drop_replicate]

theorem strncmp_literal (p rest : List Byte) (hp : ∀ c ∈ p, c ≠ 0) :
    ∀ buf : List Byte, strncmp buf (p ++ rest) p.length = 0 ↔ buf.take p.length = p := by
  induction p with
  | nil => intro buf; simp [strncmp]
  | cons c p ih =>
    intro buf
    have hc : c ≠ 0 := hp c (by simp)
    have ih2 := ih (fun d hd => hp d (by simp [hd]))
    cases buf with
    | nil =>
      have hv : c.val ≠ 0 := fun h => hc (Fin.ext h)
      simp [strncmp, Ne.symm hc]
      omega
    | cons b bs =>
      by_cases hbc : b = c
      · subst hbc
        simp [strncmp, hc, ih2]
      · have hv : b.val ≠ c.val := fun h => hbc (Fin.ext h)
        simp [strncmp, hbc]
        omega

theorem take_append_zero (p : List Byte) (hp : ∀ c ∈ p, c ≠ 0) :
    ∀ data : List Byte, (data ++ [0]).take p.length = p ↔ data.take p.length = p := by
  induction p with
  | nil => intro data; simp
  | cons c p ih =>
    intro data
    have hc : c ≠ 0 := hp c (by simp)
    have ih2 := ih (fun d hd => hp d (by simp [hd]))
    cases data with
    | nil => simp [Ne.symm hc]
    | cons d ds => simp [ih2]

theorem magicBytes_nonzero : ∀ c ∈ magicBytes, c ≠ 0 := by
  intro c hc
  simp only [magicBytes, List.mem_cons, List.mem_singleton, List.not_mem_nil, or_false] at hc
  rcases hc with h | h | h | h | h | h | h | h | h | h | h | h | h | h | h | h | h | h <;>
    subst h <;> decide

/-- The magic test of line 154 succeeds exactly when the file starts with
the 18 magic characters. -/
theorem strncmp_magic (data : List Byte) :
    strncmp (data ++ [0]) magicLiteral 18 = 0 ↔ data.take 18 = magicBytes :=
  (strncmp_literal magicBytes [0] magicBytes_nonzero (data ++ [0])).trans
    (take_append_zero magicBytes magicBytes_nonzero data)

/-- The literal `0.01f` is within half a unit in the last place of 1/100:
its value is `10737418 / 2^30`, and `|100 * 10737418 - 2^30| * 2 ≤ 100`. -/
theorem c001_nearest :
    F32.c001.significand = 10737418 ∧ F32.c001.exponent = -30 ∧
      (2 ^ 30 - 100 * 10737418) * 2 ≤ 100 ∧ 100 * 10737418 ≤ 2 ^ 30 := by
  decide

/-- The comparison with `0.0` holds for the two zeros only. -/
theorem isZero_iff (x : F32) : x.isZero = true ↔ x = F32.zero ∨ x = F32.negZero := by
  rcases x with ⟨s, e, f⟩
  cases s <;> simp [F32.isZero, F32.zero, F32.negZero, Fin.ext_iff]

/-! ## Observations on the destructor runs -/

theorem destroyed_destructors {Token : Type} (ts : List Token) :
    destroyed (ts.map Event.destructor) = ts := by
  induction ts with
  | nil => rfl
  | cons t ts ih => simpa [destroyed] using ih

theorem fileScales_destructors {Token : Type} (ts : List Token) :
    fileScales (ts.map Event.destructor) = [] := by
  induction ts with
  | nil => rfl
  | cons t ts ih => simp [fileScales]

theorem converterCalls_destructors {Token : Type} (ts : List Token) :
    converterCalls (ts.map Event.destructor) = [] := by
  induction ts with
  | nil => rfl
  | cons t ts ih => simp [converterCalls]

theorem parserCalls_destructors {Token : Type} (ts : List Token) :
    parserCalls (ts.map Event.destructor) = [] := by
  induction ts with
  | nil => rfl
  | cons t ts ih => simp [parserCalls]

theorem countP_destructors {Token : Type} (p : Event Token → Bool)
    (hp : ∀ t, p (.destructor t) = false) (ts : List Token) :
    (ts.map Event.destructor).countP p = 0 := by
  induction ts with
  | nil => rfl
  | cons t ts ih => simp [List.countP_cons, hp, ih]

theorem any_destructors {Token : Type} (p : Event Token → Bool)
    (hp : ∀ t, p (.destructor t) = false) (ts : List Token) :
    (ts.map Event.destructor).any p = false := by
  induction ts with
  | nil => rfl
  | cons t ts ih => simp [hp]

theorem fileScales_append {Token : Type} (a b : List (Event Token)) :
    fileScales (a ++ b) = fileScales a ++ fileScales b := by
  simp [fileScales, List.filterMap_append]

theorem destroyed_append {Token : Type} (a b : List (Event Token)) :
    destroyed (a ++ b) = destroyed a ++ destroyed b := by
  simp [destroyed, List.filterMap_append]

theorem converterCalls_append {Token : Type} (a b : List (Event Token)) :
    converterCalls (a ++ b) = converterCalls a ++ converterCalls b := by
  simp [converterCalls, List.filterMap_append]

theorem parserCalls_append {Token : Type} (a b : List (Event Token)) :
    parserCalls (a ++ b) = parserCalls a ++ parserCalls b := by
  simp [parserCalls, List.filterMap_append]

theorem tokenizerCall_true {Token : Type} (contents : List Byte) :
    (tokenizerCall true contents : Event Token) = .TokenizeBinary contents contents.length := rfl

theorem tokenizerCall_false {Token : Type} (contents : List Byte) :
    (tokenizerCall false contents : Event Token) = .Tokenize contents := rfl

/-! ## The exit paths of `InternReadFile` -/

theorem run_open_fails {Token ParseTree Doc Scene : Type}
    (io : Collaborators Token ParseTree Doc Scene) (mSettings : ImportSettings)
    (pFile : String) (pScene : Scene)
    (hOpen : io.Open pFile = none) :
    InternReadFile io mSettings pFile pScene =
      ⟨.error (.ThrowException "Could not open file for reading"), pScene, [.Open pFile]⟩ := by
  simp [InternReadFile, hOpen]

theorem run_tokenizer_fails {Token ParseTree Doc Scene : Type}
    (io : Collaborators Token ParseTree Doc Scene) (mSettings : ImportSettings)
    (pFile : String) (pScene : Scene) (stream : IOStream) (is_binary : Bool)
    (tokens : List Token) (e : Exception)
    (hOpen : io.Open pFile = some stream)
    (hTok : tokenizeContents io (stream.data ++ [0]) = (is_binary, tokens, some e)) :
    InternReadFile io mSettings pFile pScene =
      ⟨.error e, pScene,
        [.Open pFile, .FileSize, .Read stream.data.length,
         tokenizerCall is_binary (stream.data ++ [0])]
        ++ tokens.map .destructor ++ [.Close]⟩ := by
  simp [InternReadFile, hOpen, readContents_eq, tryBlock, hTok, IOStream.FileSize]

theorem run_parser_fails {Token ParseTree Doc Scene : Type}
    (io : Collaborators Token ParseTree Doc Scene) (mSettings : ImportSettings)
    (pFile : String) (pScene : Scene) (stream : IOStream) (is_binary : Bool)
    (tokens : List Token) (e : Exception)
    (hOpen : io.Open pFile = some stream)
    (hTok : tokenizeContents io (stream.data ++ [0]) = (is_binary, tokens, none))
    (hParser : io.Parser tokens is_binary = .error e) :
    InternReadFile io mSettings pFile pScene =
      ⟨.error e, pScene,
        [.Open pFile, .FileSize, .Read stream.data.length,
         tokenizerCall is_binary (stream.data ++ [0]), .Parser tokens is_binary]
        ++ tokens.map .destructor ++ [.Close]⟩ := by
  simp [InternReadFile, hOpen, readContents_eq, tryBlock, hTok, hParser, IOStream.FileSize]

theorem run_document_fails {Token ParseTree Doc Scene : Type}
    (io : Collaborators Token ParseTree Doc Scene) (mSettings : ImportSettings)
    (pFile : String) (pScene : Scene) (stream : IOStream) (is_binary : Bool)
    (tokens : List Token) (parser : ParseTree) (e : Exception)
    (hOpen : io.Open pFile = some stream)
    (hTok : tokenizeContents io (stream.data ++ [0]) = (is_binary, tokens, none))
    (hParser : io.Parser tokens is_binary = .ok parser)
    (hDoc : io.Document parser mSettings = .error e) :
    InternReadFile io mSettings pFile pScene =
      ⟨.error e, pScene,
        [.Open pFile, .FileSize, .Read stream.data.length,
         tokenizerCall is_binary (stream.data ++ [0]), .Parser tokens is_binary, .Document]
        ++ tokens.map .destructor ++ [.Close]⟩ := by
  simp [InternReadFile, hOpen, readContents_eq, tryBlock, hTok, hParser, hDoc,
    IOStream.FileSize]

theorem run_converter_fails {Token ParseTree Doc Scene : Type}
    (io : Collaborators Token ParseTree Doc Scene) (mSettings : ImportSettings)
    (pFile : String) (pScene : Scene) (stream : IOStream) (is_binary : Bool)
    (tokens : List Token) (parser : ParseTree) (doc : Doc) (scene : Scene) (e : Exception)
    (hOpen : io.Open pFile = some stream)
    (hTok : tokenizeContents io (stream.data ++ [0]) = (is_binary, tokens, none))
    (hParser : io.Parser tokens is_binary = .ok parser)
    (hDoc : io.Document parser mSettings = .ok doc)
    (hConv : io.ConvertToAssimpScene pScene doc mSettings.removeEmptyBones = (scene, some e)) :
    InternReadFile io mSettings pFile pScene =
      ⟨.error e, scene,
        [.Open pFile, .FileSize, .Read stream.data.length,
         tokenizerCall is_binary (stream.data ++ [0]), .Parser tokens is_binary, .Document,
         .ConvertToAssimpScene mSettings.removeEmptyBones]
        ++ tokens.map .destructor ++ [.Close]⟩ := by
  simp [InternReadFile, hOpen, readContents_eq, tryBlock, hTok, hParser, hDoc, hConv,
    IOStream.FileSize]

theorem run_unit_zero {Token ParseTree Doc Scene : Type}
    (io : Collaborators Token ParseTree Doc Scene) (mSettings : ImportSettings)
    (pFile : String) (pScene : Scene) (stream : IOStream) (is_binary : Bool)
    (tokens : List Token) (parser : ParseTree) (doc : Doc) (scene : Scene)
    (hOpen : io.Open pFile = some stream)
    (hTok : tokenizeContents io (stream.data ++ [0]) = (is_binary, tokens, none))
    (hParser : io.Parser tokens is_binary = .ok parser)
    (hDoc : io.Document parser mSettings = .ok doc)
    (hConv : io.ConvertToAssimpScene pScene doc mSettings.removeEmptyBones = (scene, none))
    (hUnit : (io.UnitScaleFactor doc).isZero = true) :
    InternReadFile io mSettings pFile pScene =
      ⟨.error (.ThrowException "The UnitScaleFactor must be non-zero"), scene,
        [.Open pFile, .FileSize, .Read stream.data.length,
         tokenizerCall is_binary (stream.data ++ [0]), .Parser tokens is_binary, .Document,
         .ConvertToAssimpScene mSettings.removeEmptyBones]
        ++ tokens.map .destructor ++ [.Close]⟩ := by
  simp [InternReadFile, hOpen, readContents_eq, tryBlock, hTok, hParser, hDoc, hConv, hUnit,
    IOStream.FileSize]

theorem run_success {Token ParseTree Doc Scene : Type}
    (io : Collaborators Token ParseTree Doc Scene) (mSettings : ImportSettings)
    (pFile : String) (pScene : Scene) (stream : IOStream) (is_binary : Bool)
    (tokens : List Token) (parser : ParseTree) (doc : Doc) (scene : Scene)
    (hOpen : io.Open pFile = some stream)
    (hTok : tokenizeContents io (stream.data ++ [0]) = (is_binary, tokens, none))
    (hParser : io.Parser tokens is_binary = .ok parser)
    (hDoc : io.Document parser mSettings = .ok doc)
    (hConv : io.ConvertToAssimpScene pScene doc mSettings.removeEmptyBones = (scene, none))
    (hUnit : (io.UnitScaleFactor doc).isZero = false) :
    InternReadFile io mSettings pFile pScene =
      ⟨.ok (), scene,
        [.Open pFile, .FileSize, .Read stream.data.length,
         tokenizerCall is_binary (stream.data ++ [0]), .Parser tokens is_binary, .Document,
         .ConvertToAssimpScene mSettings.removeEmptyBones,
         .SetFileScale ((io.UnitScaleFactor doc).mul F32.c001)]
        ++ tokens.map .destructor ++ [.Close]⟩ := by
  simp [InternReadFile, hOpen, readContents_eq, tryBlock, hTok, hParser, hDoc, hConv, hUnit,
    IOStream.FileSize]

/-- Every run that opened the stream has the same outline: open, size,
one read, one tokenizer call, then parser, document, converter and scale
calls as far as the run got, then one destructor run per token, then the
closing of the stream. -/
theorem run_shape {Token ParseTree Doc Scene : Type}
    (io : Collaborators Token ParseTree Doc Scene) (mSettings : ImportSettings)
    (pFile : String) (pScene : Scene) (stream : IOStream)
    (hOpen : io.Open pFile = some stream) :
    ∃ mid : List (Event Token),
      (InternReadFile io mSettings pFile pScene).trace =
        [.Open pFile, .FileSize, .Read stream.data.length,
          tokenizerCall (tokenizeContents io (stream.data ++ [0])).1 (stream.data ++ [0])]
        ++ mid ++ (tokenizeContents io (stream.data ++ [0])).2.1.map .destructor ++ [.Close] ∧
      ∀ ev ∈ mid,
        ev = .Parser (tokenizeContents io (stream.data ++ [0])).2.1
              (tokenizeContents io (stream.data ++ [0])).1 ∨
        ev = .Document ∨ ev = .ConvertToAssimpScene mSettings.removeEmptyBones ∨
        ∃ v, ev = .SetFileScale v := by
  rcases hT : tokenizeContents io (stream.data ++ [0]) with ⟨b, toks, _ | e⟩
  · cases hP : io.Parser toks b with
    | error e =>
      refine ⟨[.Parser toks b], ?_, ?_⟩
      · rw [run_parser_fails io mSettings pFile pScene stream b toks e hOpen hT hP]
        simp
      · simp
    | ok parser =>
      cases hD : io.Document parser mSettings with
      | error e =>
        refine ⟨[.Parser toks b, .Document], ?_, ?_⟩
        · rw [run_document_fails io mSettings pFile pScene stream b toks parser e hOpen hT hP hD]
          simp
        · simp
      | ok doc =>
        rcases hC : io.ConvertToAssimpScene pScene doc mSettings.removeEmptyBones
          with ⟨sc, _ | e⟩
        · cases hU : (io.UnitScaleFactor doc).isZero
          · refine ⟨[.Parser toks b, .Document, .ConvertToAssimpScene mSettings.removeEmptyBones,
              .SetFileScale ((io.UnitScaleFactor doc).mul F32.c001)], ?_, ?_⟩
            · rw [run_success io mSettings pFile pScene stream b toks parser doc sc
                hOpen hT hP hD hC hU]
              simp
            · simp
          · refine ⟨[.Parser toks b, .Document,
              .ConvertToAssimpScene mSettings.removeEmptyBones], ?_, ?_⟩
            · rw [run_unit_zero io mSettings pFile pScene stream b toks parser doc sc
                hOpen hT hP hD hC hU]
              simp
            · simp
        · refine ⟨[.Parser toks b, .Document,
            .ConvertToAssimpScene mSettings.removeEmptyBones], ?_, ?_⟩
          · rw [run_converter_fails io mSettings pFile pScene stream b toks parser doc sc e
              hOpen hT hP hD hC]
            simp
          · simp
  · refine ⟨[], ?_, ?_⟩
    · rw [run_tokenizer_fails io mSettings pFile pScene stream b toks e hOpen hT]
      simp
    · simp

theorem tryBlock_tokens {Token ParseTree Doc Scene : Type}
    (io : Collaborators Token ParseTree Doc Scene) (mSettings : ImportSettings)
    (pScene : Scene) (contents : List Byte) :
    (tryBlock io mSettings pScene contents).tokens = (tokenizeContents io contents).2.1 := by
  unfold tryBlock
  split
  · next h => simp [h]
  · next h =>
    simp only [h]
    repeat (first | rfl | split)

theorem tokenizeContents_eq {Token ParseTree Doc Scene : Type}
    (io : Collaborators Token ParseTree Doc Scene) (data : List Byte) :
    tokenizeContents io (data ++ [0]) =
      if data.take 18 = magicBytes then
        (true, io.TokenizeBinary (data ++ [0]) (data.length + 1))
      else (false, io.Tokenize (data ++ [0])) := by
  by_cases h : data.take 18 = magicBytes
  · simp [tokenizeContents, (strncmp_magic data).mpr h, h]
  · have h2 : ¬ strncmp (data ++ [0]) magicLiteral 18 = 0 := fun h3 => h ((strncmp_magic data).mp h3)
    simp [tokenizeContents, h2, h]

theorem any_mid {Token : Type} (p : Event Token → Bool) (mid : List (Event Token))
    (toks : List Token) (b reb : Bool)
    (hmid : ∀ ev ∈ mid, ev = .Parser toks b ∨ ev = .Document ∨
      ev = .ConvertToAssimpScene reb ∨ ∃ v, ev = .SetFileScale v)
    (h1 : p (.Parser toks b) = false) (h2 : p .Document = false)
    (h3 : p (.ConvertToAssimpScene reb) = false) (h4 : ∀ v, p (.SetFileScale v) = false) :
    mid.any p = false := by
  rw [List.any_eq_false]
  intro ev hev
  rcases hmid ev hev with h | h | h | ⟨v, h⟩ <;> subst h <;> simp [h1, h2, h3, h4]

theorem countP_mid {Token : Type} (p : Event Token → Bool) (mid : List (Event Token))
    (toks : List Token) (b reb : Bool)
    (hmid : ∀ ev ∈ mid, ev = .Parser toks b ∨ ev = .Document ∨
      ev = .ConvertToAssimpScene reb ∨ ∃ v, ev = .SetFileScale v)
    (h1 : p (.Parser toks b) = false) (h2 : p .Document = false)
    (h3 : p (.ConvertToAssimpScene reb) = false) (h4 : ∀ v, p (.SetFileScale v) = false) :
    mid.countP p = 0 := by
  rw [List.countP_eq_zero]
  intro ev hev
  rcases hmid ev hev with h | h | h | ⟨v, h⟩ <;> subst h <;> simp [h1, h2, h3, h4]

theorem destroyed_mid {Token : Type} (mid : List (Event Token))
    (toks : List Token) (b reb : Bool)
    (hmid : ∀ ev ∈ mid, ev = .Parser toks b ∨ ev = .Document ∨
      ev = .ConvertToAssimpScene reb ∨ ∃ v, ev = .SetFileScale v) :
    destroyed mid = [] := by
  unfold destroyed
  rw [List.filterMap_eq_nil_iff]
  intro ev hev
  rcases hmid ev hev with h | h | h | ⟨v, h⟩ <;> subst h <;> rfl

/-! ## Unit scale (C1, C2, C3) -/

/-- C2: when tokenizing, parsing, document construction and conversion
succeed, the import fails with "The UnitScaleFactor must be non-zero"
exactly when the unit-scale factor of the document is a zero (`+0.0f` or
`-0.0f`), and in that case `SetFileScale` is not called. -/
theorem C2_unit_scale_error {Token ParseTree Doc Scene : Type}
    (io : Collaborators Token ParseTree Doc Scene) (mSettings : ImportSettings)
    (pFile : String) (pScene : Scene) (stream : IOStream) (is_binary : Bool)
    (tokens : List Token) (parser : ParseTree) (doc : Doc) (scene : Scene)
    (hOpen : io.Open pFile = some stream)
    (hTok : tokenizeContents io (stream.data ++ [0]) = (is_binary, tokens, none))
    (hParser : io.Parser tokens is_binary = .ok parser)
    (hDoc : io.Document parser mSettings = .ok doc)
    (hConv : io.ConvertToAssimpScene pScene doc mSettings.removeEmptyBones = (scene, none)) :
    ((InternReadFile io mSettings pFile pScene).result
        = .error (.ThrowException "The UnitScaleFactor must be non-zero")
      ↔ (io.UnitScaleFactor doc = F32.zero ∨ io.UnitScaleFactor doc = F32.negZero)) ∧
    ((InternReadFile io mSettings pFile pScene).result
        = .error (.ThrowException "The UnitScaleFactor must be non-zero")
      → fileScales (InternReadFile io mSettings pFile pScene).trace = []) := by
  cases hUnit : (io.UnitScaleFactor doc).isZero with
  | false =>
    have hne : ¬ (io.UnitScaleFactor doc = F32.zero ∨ io.UnitScaleFactor doc = F32.negZero) := by
      rw [← isZero_iff, hUnit]
      simp
    rw [run_success io mSettings pFile pScene stream is_binary tokens parser doc scene
      hOpen hTok hParser hDoc hConv hUnit]
    simp [hne]
  | true =>
    have heq := (isZero_iff (io.UnitScaleFactor doc)).mp hUnit
    rw [run_unit_zero io mSettings pFile pScene stream is_binary tokens parser doc scene
      hOpen hTok hParser hDoc hConv hUnit]
    refine ⟨⟨fun _ => heq, fun _ => rfl⟩, fun _ => ?_⟩
    simp only [fileScales_append, fileScales_destructors]
    cases is_binary <;> simp [fileScales, tokenizerCall]

/-- Witness of C2: a text file whose document reports `+0.0f`. -/
theorem C2_unit_scale_error_witness :
    (InternReadFile (sampleHost F32.zero 0) documentedDefaults "scene.fbx" 0).result
        = .error (.ThrowException "The UnitScaleFactor must be non-zero") ∧
    fileScales (InternReadFile (sampleHost F32.zero 0) documentedDefaults "scene.fbx" 0).trace
        = [] := by
  have h := C2_unit_scale_error (sampleHost F32.zero 0) documentedDefaults "scene.fbx" 0
    textStream false [3, 4] 2 2 1 (by decide) (by decide) rfl rfl (by decide)
  exact ⟨h.1.mpr (Or.inl rfl), h.2 (h.1.mpr (Or.inl rfl))⟩

/-- Counterexample to C3 as stated: the document of `scene.fbx` has
unit-scale factor `+0.0f`, the import fails with the unit-scale error, and
yet the converter has been called once and the output scene, 0 on entry, is
1 on exit. -/
theorem C3_counterexample :
    (sampleHost F32.zero 0).UnitScaleFactor 2 = F32.zero ∧
    (InternReadFile (sampleHost F32.zero 0) documentedDefaults "scene.fbx" 0).result
        = .error (.ThrowException "The UnitScaleFactor must be non-zero") ∧
    converterCalls (InternReadFile (sampleHost F32.zero 0) documentedDefaults "scene.fbx" 0).trace
        = [true] ∧
    (InternReadFile (sampleHost F32.zero 0) documentedDefaults "scene.fbx" 0).scene = 1 ∧
    (InternReadFile (sampleHost F32.zero 0) documentedDefaults "scene.fbx" 0).scene ≠ 0 :=
  ⟨rfl, rfl, by decide, by decide, by decide⟩

/-- C3, amended: the unit-scale factor is validated after conversion and
before the scale is reported.  When the document is built and its
unit-scale factor is a zero, the import fails, the converter has been called
exactly once (with `removeEmptyBones`), the output scene is the one the
converter left, `SetFileScale` is not called, and if the converter itself
did not raise the failure is the unit-scale error. -/
theorem C3_validated_after_conversion {Token ParseTree Doc Scene : Type}
    (io : Collaborators Token ParseTree Doc Scene) (mSettings : ImportSettings)
    (pFile : String) (pScene : Scene) (stream : IOStream) (is_binary : Bool)
    (tokens : List Token) (parser : ParseTree) (doc : Doc)
    (hOpen : io.Open pFile = some stream)
    (hTok : tokenizeContents io (stream.data ++ [0]) = (is_binary, tokens, none))
    (hParser : io.Parser tokens is_binary = .ok parser)
    (hDoc : io.Document parser mSettings = .ok doc)
    (hUnit : (io.UnitScaleFactor doc).isZero = true) :
    (∃ e, (InternReadFile io mSettings pFile pScene).result = .error e) ∧
    converterCalls (InternReadFile io mSettings pFile pScene).trace
      = [mSettings.removeEmptyBones] ∧
    (InternReadFile io mSettings pFile pScene).scene
      = (io.ConvertToAssimpScene pScene doc mSettings.removeEmptyBones).1 ∧
    fileScales (InternReadFile io mSettings pFile pScene).trace = [] ∧
    ((io.ConvertToAssimpScene pScene doc mSettings.removeEmptyBones).2 = none →
      (InternReadFile io mSettings pFile pScene).result
        = .error (.ThrowException "The UnitScaleFactor must be non-zero")) := by
  rcases hConv : io.ConvertToAssimpScene pScene doc mSettings.removeEmptyBones
    with ⟨scene, _ | e⟩
  · rw [run_unit_zero io mSettings pFile pScene stream is_binary tokens parser doc scene
      hOpen hTok hParser hDoc hConv hUnit]
    simp only [fileScales_append, fileScales_destructors, converterCalls_append,
      converterCalls_destructors]
    cases is_binary <;> simp [fileScales, converterCalls, tokenizerCall]
  · rw [run_converter_fails io mSettings pFile pScene stream is_binary tokens parser doc scene e
      hOpen hTok hParser hDoc hConv]
    simp only [fileScales_append, fileScales_destructors, converterCalls_append,
      converterCalls_destructors]
    cases is_binary <;> simp [fileScales, converterCalls, tokenizerCall]

/-- Witness of C3, amended: the text file whose document reports `+0.0f`. -/
theorem C3_validated_after_conversion_witness :
    converterCalls (InternReadFile (sampleHost F32.zero 0) documentedDefaults "scene.fbx" 0).trace
        = [documentedDefaults.removeEmptyBones] ∧
    (InternReadFile (sampleHost F32.zero 0) documentedDefaults "scene.fbx" 0).scene
        = ((sampleHost F32.zero 0).ConvertToAssimpScene 0 2 documentedDefaults.removeEmptyBones).1 :=
  have h := C3_validated_after_conversion (sampleHost F32.zero 0) documentedDefaults "scene.fbx" 0
    textStream false [3, 4] 2 2 (by decide) (by decide) rfl rfl (by decide)
  ⟨h.2.1, h.2.2.1⟩

/-! ## Tokenizer selection (C4) -/

/-- C4: whenever the file can be opened, exactly one tokenizer call is
made; it is the binary tokenizer if and only if the first 18 bytes of the
file are `Kaydara FBX Binary`, and the text tokenizer otherwise (in
particular for files shorter than 18 bytes and for files with a zero byte
among the first 18); every `Parser` construction receives `is_binary = true`
exactly in the binary case, with the tokens of the tokenizer that ran. -/
theorem C4_tokenizer_selection {Token ParseTree Doc Scene : Type}
    (io : Collaborators Token ParseTree Doc Scene) (mSettings : ImportSettings)
    (pFile : String) (pScene : Scene) (stream : IOStream)
    (hOpen : io.Open pFile = some stream) :
    ((InternReadFile io mSettings pFile pScene).trace.any Event.isTokenizeBinary = true
      ↔ stream.data.take 18 = magicBytes) ∧
    ((InternReadFile io mSettings pFile pScene).trace.any Event.isTokenize = true
      ↔ stream.data.take 18 ≠ magicBytes) ∧
    (InternReadFile io mSettings pFile pScene).trace.countP Event.isTokenizer = 1 ∧
    (stream.data.length < 18 →
      (InternReadFile io mSettings pFile pScene).trace.any Event.isTokenize = true) ∧
    ((0 : Byte) ∈ stream.data.take 18 →
      (InternReadFile io mSettings pFile pScene).trace.any Event.isTokenize = true) ∧
    (∀ toks b, Event.Parser toks b ∈ (InternReadFile io mSettings pFile pScene).trace →
      (b = true ↔ stream.data.take 18 = magicBytes) ∧
      toks = (if stream.data.take 18 = magicBytes
        then (io.TokenizeBinary (stream.data ++ [0]) (stream.data.length + 1)).1
        else (io.Tokenize (stream.data ++ [0])).1)) := by
  obtain ⟨mid, htrace, hmid⟩ := run_shape io mSettings pFile pScene stream hOpen
  have hB := any_mid Event.isTokenizeBinary mid _ _ _ hmid rfl rfl rfl (fun _ => rfl)
  have hX := any_mid Event.isTokenize mid _ _ _ hmid rfl rfl rfl (fun _ => rfl)
  have hC := countP_mid Event.isTokenizer mid _ _ _ hmid rfl rfl rfl (fun _ => rfl)
  have hdB := any_destructors Event.isTokenizeBinary (fun _ => rfl)
    (tokenizeContents io (stream.data ++ [0])).2.1
  have hdX := any_destructors Event.isTokenize (fun _ => rfl)
    (tokenizeContents io (stream.data ++ [0])).2.1
  have hdC := countP_destructors Event.isTokenizer (fun _ => rfl)
    (tokenizeContents io (stream.data ++ [0])).2.1
  have hb : (tokenizeContents io (stream.data ++ [0])).1 = true
      ↔ stream.data.take 18 = magicBytes := by
    rw [tokenizeContents_eq]
    by_cases hm : stream.data.take 18 = magicBytes <;> simp [hm]
  have ht : (tokenizeContents io (stream.data ++ [0])).2.1
      = (if stream.data.take 18 = magicBytes
        then (io.TokenizeBinary (stream.data ++ [0]) (stream.data.length + 1)).1
        else (io.Tokenize (stream.data ++ [0])).1) := by
    rw [tokenizeContents_eq]
    by_cases hm : stream.data.take 18 = magicBytes <;> simp [hm]
  have hanyB : (InternReadFile io mSettings pFile pScene).trace.any Event.isTokenizeBinary
      = (tokenizeContents io (stream.data ++ [0])).1 := by
    rw [htrace]
    simp only [List.any_append, hB, hdB]
    cases (tokenizeContents io (stream.data ++ [0])).1 <;>
      simp [tokenizerCall, Event.isTokenizeBinary]
  have hanyX : (InternReadFile io mSettings pFile pScene).trace.any Event.isTokenize
      = !(tokenizeContents io (stream.data ++ [0])).1 := by
    rw [htrace]
    simp only [List.any_append, hX, hdX]
    cases (tokenizeContents io (stream.data ++ [0])).1 <;>
      simp [tokenizerCall, Event.isTokenize]
  have hcount : (InternReadFile io mSettings pFile pScene).trace.countP Event.isTokenizer = 1 := by
    rw [htrace]
    simp only [List.countP_append, hC, hdC]
    cases (tokenizeContents io (stream.data ++ [0])).1 <;>
      simp [tokenizerCall, Event.isTokenizer, List.countP_cons]
  have htext : (InternReadFile io mSettings pFile pScene).trace.any Event.isTokenize = true
      ↔ stream.data.take 18 ≠ magicBytes := by
    rw [hanyX, Ne, ← hb]
    simp
  have hshort : stream.data.length < 18 → stream.data.take 18 ≠ magicBytes := by
    intro hlen heq
    have h1 := congrArg List.length heq
    simp [magicBytes] at h1
    omega
  have hzero : (0 : Byte) ∈ stream.data.take 18 → stream.data.take 18 ≠ magicBytes := by
    intro hmem heq
    rw [heq] at hmem
    exact magicBytes_nonzero 0 hmem rfl
  refine ⟨by rw [hanyB]; exact hb, htext, hcount, fun h => htext.mpr (hshort h),
    fun h => htext.mpr (hzero h), ?_⟩
  intro toks b hmem
  rw [htrace] at hmem
  simp only [List.mem_append, List.mem_cons, List.mem_map, List.mem_singleton,
    List.not_mem_nil, or_false, or_assoc] at hmem
  have key : toks = (tokenizeContents io (stream.data ++ [0])).2.1 ∧
      b = (tokenizeContents io (stream.data ++ [0])).1 := by
    rcases hmem with h | h | h | h | h | h | h
    · cases h
    · cases h
    · cases h
    · revert h
      cases (tokenizeContents io (stream.data ++ [0])).1 <;> simp [tokenizerCall]
    · rcases hmid _ h with h | h | h | ⟨v, h⟩
      · cases h; exact ⟨rfl, rfl⟩
      · cases h
      · cases h
      · cases h
    · obtain ⟨t, _, ht2⟩ := h
      cases ht2
    · cases h
  rw [key.1, key.2]
  exact ⟨hb, ht⟩

/-- Witness of C4: `binary.fbx` starts with the magic and goes to the binary
tokenizer; the five-byte text file goes to the text tokenizer. -/
theorem C4_tokenizer_selection_witness :
    (InternReadFile (sampleHost F32.one 0) documentedDefaults "binary.fbx" 0).trace.any
        Event.isTokenizeBinary = true ∧
    (InternReadFile (sampleHost F32.one 0) documentedDefaults "scene.fbx" 0).trace.any
        Event.isTokenize = true :=
  ⟨(C4_tokenizer_selection (sampleHost F32.one 0) documentedDefaults "binary.fbx" 0 binaryStream
      (by decide)).1.mpr (by decide),
   (C4_tokenizer_selection (sampleHost F32.one 0) documentedDefaults "scene.fbx" 0 textStream
      (by decide)).2.2.2.1 (by decide)⟩

/-! ## Failure handling (C5, C6, C9) -/

/-- C5: a tokenizer failure is propagated and no parser, document or
converter call is made, the scene is unchanged and no scale is reported; a
parser failure is propagated with no document or converter call; a document
failure is propagated with no converter call. -/
theorem C5_fail_fast {Token ParseTree Doc Scene : Type}
    (io : Collaborators Token ParseTree Doc Scene) (mSettings : ImportSettings)
    (pFile : String) (pScene : Scene) (stream : IOStream) (is_binary : Bool)
    (tokens : List Token) (e : Exception)
    (hOpen : io.Open pFile = some stream) :
    (tokenizeContents io (stream.data ++ [0]) = (is_binary, tokens, some e) →
      (InternReadFile io mSettings pFile pScene).result = .error e ∧
      parserCalls (InternReadFile io mSettings pFile pScene).trace = [] ∧
      (InternReadFile io mSettings pFile pScene).trace.any Event.isDocument = false ∧
      converterCalls (InternReadFile io mSettings pFile pScene).trace = [] ∧
      (InternReadFile io mSettings pFile pScene).scene = pScene ∧
      fileScales (InternReadFile io mSettings pFile pScene).trace = []) ∧
    (tokenizeContents io (stream.data ++ [0]) = (is_binary, tokens, none) →
      io.Parser tokens is_binary = .error e →
      (InternReadFile io mSettings pFile pScene).result = .error e ∧
      (InternReadFile io mSettings pFile pScene).trace.any Event.isDocument = false ∧
      converterCalls (InternReadFile io mSettings pFile pScene).trace = [] ∧
      (InternReadFile io mSettings pFile pScene).scene = pScene ∧
      fileScales (InternReadFile io mSettings pFile pScene).trace = []) ∧
    (∀ parser, tokenizeContents io (stream.data ++ [0]) = (is_binary, tokens, none) →
      io.Parser tokens is_binary = .ok parser →
      io.Document parser mSettings = .error e →
      (InternReadFile io mSettings pFile pScene).result = .error e ∧
      converterCalls (InternReadFile io mSettings pFile pScene).trace = [] ∧
      (InternReadFile io mSettings pFile pScene).scene = pScene ∧
      fileScales (InternReadFile io mSettings pFile pScene).trace = []) := by
  have hdD := any_destructors Event.isDocument (fun _ => rfl) tokens
  refine ⟨?_, ?_, ?_⟩
  · intro hTok
    rw [run_tokenizer_fails io mSettings pFile pScene stream is_binary tokens e hOpen hTok]
    simp only [fileScales_append, fileScales_destructors, converterCalls_append,
      converterCalls_destructors, parserCalls_append, parserCalls_destructors,
      List.any_append, hdD]
    cases is_binary <;>
      simp [fileScales, converterCalls, parserCalls, tokenizerCall, Event.isDocument]
  · intro hTok hParser
    rw [run_parser_fails io mSettings pFile pScene stream is_binary tokens e hOpen hTok hParser]
    simp only [fileScales_append, fileScales_destructors, converterCalls_append,
      converterCalls_destructors, List.any_append, hdD]
    cases is_binary <;>
      simp [fileScales, converterCalls, tokenizerCall, Event.isDocument]
  · intro parser hTok hParser hDoc
    rw [run_document_fails io mSettings pFile pScene stream is_binary tokens parser e
      hOpen hTok hParser hDoc]
    simp only [fileScales_append, fileScales_destructors, converterCalls_append,
      converterCalls_destructors]
    cases is_binary <;> simp [fileScales, converterCalls, tokenizerCall]

/-- Witness of C5: the text file with a failing tokenizer, with a failing
parser and with a failing document stage. -/
theorem C5_fail_fast_witness :
    ((InternReadFile (sampleHost F32.one 1) documentedDefaults "scene.fbx" 0).result
        = .error (.raised "tokenizer") ∧
      (InternReadFile (sampleHost F32.one 1) documentedDefaults "scene.fbx" 0).scene = 0) ∧
    ((InternReadFile (sampleHost F32.one 2) documentedDefaults "scene.fbx" 0).result
        = .error (.raised "parser") ∧
      converterCalls (InternReadFile (sampleHost F32.one 2) documentedDefaults "scene.fbx" 0).trace
        = []) ∧
    ((InternReadFile (sampleHost F32.one 3) documentedDefaults "scene.fbx" 0).result
        = .error (.raised "document") ∧
      converterCalls (InternReadFile (sampleHost F32.one 3) documentedDefaults "scene.fbx" 0).trace
        = []) :=
  have h1 := (C5_fail_fast (sampleHost F32.one 1) documentedDefaults "scene.fbx" 0 textStream
    false [3, 4] (.raised "tokenizer") (by decide)).1 (by decide)
  have h2 := (C5_fail_fast (sampleHost F32.one 2) documentedDefaults "scene.fbx" 0 textStream
    false [3, 4] (.raised "parser") (by decide)).2.1 (by decide) rfl
  have h3 := (C5_fail_fast (sampleHost F32.one 3) documentedDefaults "scene.fbx" 0 textStream
    false [3, 4] (.raised "document") (by decide)).2.2 2 (by decide) rfl rfl
  ⟨⟨h1.1, h1.2.2.2.2.1⟩, ⟨h2.1, h2.2.2.1⟩, ⟨h3.1, h3.2.1⟩⟩

/-- C6: on every run that reaches tokenization, whether it returns or any
stage raises, the destructor runs recorded in the trace are exactly the
tokens of the token list, one run per token in list order; they form the
last block before the closing of the stream; and the result of the run is
the exception that ended the `try` block, unchanged, or a normal return if
there was none. -/
theorem C6_cleanup {Token ParseTree Doc Scene : Type}
    (io : Collaborators Token ParseTree Doc Scene) (mSettings : ImportSettings)
    (pFile : String) (pScene : Scene) (stream : IOStream)
    (hOpen : io.Open pFile = some stream) :
    destroyed (InternReadFile io mSettings pFile pScene).trace
      = (tokenizeContents io (stream.data ++ [0])).2.1 ∧
    (tryBlock io mSettings pScene (readContents stream)).tokens
      = (tokenizeContents io (stream.data ++ [0])).2.1 ∧
    (∃ before, (InternReadFile io mSettings pFile pScene).trace
        = before ++ (tokenizeContents io (stream.data ++ [0])).2.1.map .destructor ++ [.Close] ∧
      destroyed before = []) ∧
    (InternReadFile io mSettings pFile pScene).result
      = (match (tryBlock io mSettings pScene (readContents stream)).thrown with
          | none => .ok ()
          | some e => .error e) := by
  obtain ⟨mid, htrace, hmid⟩ := run_shape io mSettings pFile pScene stream hOpen
  have hdm := destroyed_mid mid _ _ _ hmid
  have hcall : destroyed [(tokenizerCall (tokenizeContents io (stream.data ++ [0])).1
      (stream.data ++ [0]) : Event Token)] = [] := by
    cases (tokenizeContents io (stream.data ++ [0])).1 <;> rfl
  have hbefore : destroyed
      ([.Open pFile, .FileSize, .Read stream.data.length,
        tokenizerCall (tokenizeContents io (stream.data ++ [0])).1 (stream.data ++ [0])]
        ++ mid : List (Event Token)) = [] := by
    rw [destroyed_append, hdm]
    cases (tokenizeContents io (stream.data ++ [0])).1 <;> rfl
  refine ⟨?_, ?_, ⟨_, htrace, hbefore⟩, ?_⟩
  · rw [htrace, destroyed_append, destroyed_append, hbefore, destroyed_destructors]
    simp [destroyed]
  · rw [readContents_eq]
    exact tryBlock_tokens io mSettings pScene (stream.data ++ [0])
  · simp only [InternReadFile, hOpen]
    cases (tryBlock io mSettings pScene (readContents stream)).thrown <;> rfl

/-- Witness of C6: the text file with a failing converter; both tokens are
destroyed once and the converter's exception is the result. -/
theorem C6_cleanup_witness :
    destroyed (InternReadFile (sampleHost F32.one 4) documentedDefaults "scene.fbx" 0).trace
      = [3, 4] ∧
    (InternReadFile (sampleHost F32.one 4) documentedDefaults "scene.fbx" 0).result
      = .error (.raised "converter") :=
  have h := C6_cleanup (sampleHost F32.one 4) documentedDefaults "scene.fbx" 0 textStream
    (by decide)
  ⟨h.1.trans (by decide), h.2.2.2.trans rfl⟩

/-- C9: when `Open` yields the null pointer the run fails with "Could not
open file for reading", the only call made is the `Open` itself (no read, no
close, no tokenizer, parser, document or converter call, no scale) and the
scene is unchanged; when `Open` yields a stream, the stream is closed
exactly once, as the last call of the run, on every exit path. -/
theorem C9_open_and_close {Token ParseTree Doc Scene : Type}
    (io : Collaborators Token ParseTree Doc Scene) (mSettings : ImportSettings)
    (pFile : String) (pScene : Scene) :
    (io.Open pFile = none →
      InternReadFile io mSettings pFile pScene =
        ⟨.error (.ThrowException "Could not open file for reading"), pScene, [.Open pFile]⟩) ∧
    (∀ stream, io.Open pFile = some stream →
      (InternReadFile io mSettings pFile pScene).trace.countP Event.isClose = 1 ∧
      (InternReadFile io mSettings pFile pScene).trace.getLast? = some .Close) := by
  refine ⟨run_open_fails io mSettings pFile pScene, ?_⟩
  intro stream hOpen
  obtain ⟨mid, htrace, hmid⟩ := run_shape io mSettings pFile pScene stream hOpen
  have hC := countP_mid Event.isClose mid _ _ _ hmid rfl rfl rfl (fun _ => rfl)
  have hdC := countP_destructors Event.isClose (fun _ => rfl)
    (tokenizeContents io (stream.data ++ [0])).2.1
  rw [htrace]
  refine ⟨?_, List.getLast?_concat _⟩
  simp only [List.countP_append, hC, hdC]
  cases (tokenizeContents io (stream.data ++ [0])).1 <;>
    simp [tokenizerCall, Event.isClose, List.countP_cons]

/-- Witness of C9: `missing.fbx` cannot be opened; `scene.fbx` can, and a
run on it with a failing parser closes the stream once. -/
theorem C9_open_and_close_witness :
    InternReadFile (sampleHost F32.one 0) documentedDefaults "missing.fbx" 7 =
      ⟨.error (.ThrowException "Could not open file for reading"), 7,
        [.Open "missing.fbx"]⟩ ∧
    (InternReadFile (sampleHost F32.one 2) documentedDefaults "scene.fbx" 7).trace.countP
      Event.isClose = 1 :=
  ⟨(C9_open_and_close (sampleHost F32.one 0) documentedDefaults "missing.fbx" 7).1 (by decide),
   ((C9_open_and_close (sampleHost F32.one 2) documentedDefaults "scene.fbx" 7).2 textStream
      (by decide)).1⟩

/-! ## The input buffer (C8) -/

/-- C7: for every property store, each of the sixteen settings fields is
the boolean stored under its own key when the key is present and the listed
default otherwise; with an empty store the settings are the documented
defaults; and, the sixteen keys having distinct names, changing the entry of
one key (setting or removing it) changes no other field. -/
theorem C7_setup_properties (macroValue : ConfigKey → String)
    (hDistinct : Function.Injective macroValue) (pImp : Importer) :
    (∀ k, settingOf k (SetupProperties macroValue pImp)
      = (pImp (macroValue k)).getD (settingOf k documentedDefaults)) ∧
    SetupProperties macroValue (fun _ => none) = documentedDefaults ∧
    (∀ (k k2 : ConfigKey) (v : Option Bool), k2 ≠ k →
      settingOf k2 (SetupProperties macroValue (Function.update pImp (macroValue k) v))
        = settingOf k2 (SetupProperties macroValue pImp)) ∧
    (∀ (k : ConfigKey) (v : Bool),
      settingOf k (SetupProperties macroValue (Function.update pImp (macroValue k) (some v)))
        = v) := by
  have hfield : ∀ (p : Importer) (k : ConfigKey), settingOf k (SetupProperties macroValue p)
      = (p (macroValue k)).getD (settingOf k documentedDefaults) := by
    intro p k
    cases k <;> rfl
  refine ⟨hfield pImp, rfl, ?_, ?_⟩
  · intro k k2 v hne
    rw [hfield, hfield]
    have hname : macroValue k2 ≠ macroValue k := fun h => hne (hDistinct h)
    rw [Function.update_noteq hname]
  · intro k v
    rw [hfield]
    simp

/-- The identifiers of the sixteen macros are pairwise distinct. -/
theorem identifierNames_injective : Function.Injective identifierNames := by
  intro a b h
  cases a <;> cases b <;> first | rfl | (exact absurd h (by decide))

/-- Witness of C7: the store that switches `convertToMeters` on and
`readLights` off, under the identifier naming. -/
theorem C7_setup_properties_witness :
    (SetupProperties identifierNames sampleStore).convertToMeters = true ∧
    (SetupProperties identifierNames sampleStore).readLights = false ∧
    (SetupProperties identifierNames sampleStore).readCameras = true ∧
    SetupProperties identifierNames (fun _ => none) = documentedDefaults :=
  have h := C7_setup_properties identifierNames identifierNames_injective sampleStore
  ⟨(h.1 .AI_CONFIG_FBX_CONVERT_TO_M).trans (by decide),
   (h.1 .AI_CONFIG_IMPORT_FBX_READ_LIGHTS).trans (by decide),
   (h.1 .AI_CONFIG_IMPORT_FBX_READ_CAMERAS).trans (by decide),
   h.2.1⟩

/-- C10: two successful runs whose documents have the same non-zero
unit-scale factor report the same scale, whatever their settings, files and
collaborators are; each run hands exactly `removeEmptyBones` to its one
converter call; and two settings that agree on `removeEmptyBones` and on
which the `Document` constructor agrees give the same run, so no other
settings value is used by `InternReadFile` itself. -/
theorem C10_scale_independent_of_settings {Token ParseTree Doc Scene : Type}
    (io1 io2 : Collaborators Token ParseTree Doc Scene) (s1 s2 : ImportSettings)
    (pFile1 pFile2 : String) (pScene1 pScene2 : Scene) (stream1 stream2 : IOStream)
    (b1 b2 : Bool) (tokens1 tokens2 : List Token) (parser1 parser2 : ParseTree)
    (doc1 doc2 : Doc) (scene1 scene2 : Scene)
    (hOpen1 : io1.Open pFile1 = some stream1)
    (hTok1 : tokenizeContents io1 (stream1.data ++ [0]) = (b1, tokens1, none))
    (hParser1 : io1.Parser tokens1 b1 = .ok parser1)
    (hDoc1 : io1.Document parser1 s1 = .ok doc1)
    (hConv1 : io1.ConvertToAssimpScene pScene1 doc1 s1.removeEmptyBones = (scene1, none))
    (hOpen2 : io2.Open pFile2 = some stream2)
    (hTok2 : tokenizeContents io2 (stream2.data ++ [0]) = (b2, tokens2, none))
    (hParser2 : io2.Parser tokens2 b2 = .ok parser2)
    (hDoc2 : io2.Document parser2 s2 = .ok doc2)
    (hConv2 : io2.ConvertToAssimpScene pScene2 doc2 s2.removeEmptyBones = (scene2, none))
    (hUnit : (io1.UnitScaleFactor doc1).isZero = false)
    (hSame : io1.UnitScaleFactor doc1 = io2.UnitScaleFactor doc2) :
    fileScales (InternReadFile io1 s1 pFile1 pScene1).trace
      = fileScales (InternReadFile io2 s2 pFile2 pScene2).trace ∧
    fileScales (InternReadFile io1 s1 pFile1 pScene1).trace
      = [(io1.UnitScaleFactor doc1).mul F32.c001] ∧
    converterCalls (InternReadFile io1 s1 pFile1 pScene1).trace = [s1.removeEmptyBones] ∧
    converterCalls (InternReadFile io2 s2 pFile2 pScene2).trace = [s2.removeEmptyBones] ∧
    (∀ s t : ImportSettings, s.removeEmptyBones = t.removeEmptyBones →
      (∀ parser, io1.Document parser s = io1.Document parser t) →
      InternReadFile io1 s pFile1 pScene1 = InternReadFile io1 t pFile1 pScene1) := by
  have hUnit2 : (io2.UnitScaleFactor doc2).isZero = false := by rw [← hSame]; exact hUnit
  rw [run_success io1 s1 pFile1 pScene1 stream1 b1 tokens1 parser1 doc1 scene1
    hOpen1 hTok1 hParser1 hDoc1 hConv1 hUnit,
    run_success io2 s2 pFile2 pScene2 stream2 b2 tokens2 parser2 doc2 scene2
    hOpen2 hTok2 hParser2 hDoc2 hConv2 hUnit2]
  simp only [fileScales_append, fileScales_destructors, converterCalls_append,
    converterCalls_destructors]
  refine ⟨?_, ?_, ?_, ?_, ?_⟩
  · cases b1 <;> cases b2 <;> simp [fileScales, tokenizerCall, hSame]
  · cases b1 <;> simp [fileScales, tokenizerCall]
  · cases b1 <;> simp [converterCalls, tokenizerCall]
  · cases b2 <;> simp [converterCalls, tokenizerCall]
  · intro s t hreb hdoc
    simp only [InternReadFile, tryBlock, hdoc, hreb]

/-- Witness of C10: the same text file imported with the documented
defaults and with `convertToMeters` and `ignoreUpDirection` switched on
reports the same scale. -/
theorem C10_scale_independent_of_settings_witness :
    fileScales (InternReadFile (sampleHost F32.hundred 0) documentedDefaults "scene.fbx" 0).trace
      = fileScales (InternReadFile (sampleHost F32.hundred 0)
          { documentedDefaults with convertToMeters := true, ignoreUpDirection := true }
          "scene.fbx" 0).trace :=
  (C10_scale_independent_of_settings (sampleHost F32.hundred 0) (sampleHost F32.hundred 0)
    documentedDefaults
    { documentedDefaults with convertToMeters := true, ignoreUpDirection := true }
    "scene.fbx" "scene.fbx" 0 0 textStream textStream false false [3, 4] [3, 4] 2 2 2 2 1 1
    (by decide) (by decide) rfl rfl (by decide)
    (by decide) (by decide) rfl rfl (by decide) (by decide) rfl).1

end FBX
